import Mathlib

/-!
Verification of the client-side navigation container of the foodrecipe
repository (`WebNavigationContainer` in `src/unnamed/part_005`, route and
deep-link tables in `src/static-site/components/recipes.js`).

The embedding models the navigation bookkeeping faithfully: the history
stack and its index, the per-screen parameter store, the in-flight
animation flag, and the mirror of the browser history.  DOM mutation,
CSS classes, page titles and console logging are outside the model; the
net effect of `renderScreenWithAnimation` on the navigation state (the
in-flight flag and whether a screen was rendered) is kept.

JavaScript objects used as string-keyed maps are embedded as association
lists with first-match lookup; object spread `{...a, ...b}` is embedded
with the same lookup semantics (keys of `b` win).
-/

namespace RecipeNav

/-- Parameter bags passed to `navigate`/`replace`/`reset`.  The source
passes arbitrary JSON objects; the navigation layer never inspects the
values, so they are embedded as strings keyed by strings. -/
abbrev ParamMap := List (String × String)

/-- First-match lookup in a parameter bag, as JS property access `m[k]`. -/
def lookupParam : ParamMap → String → Option String
  | [], _ => none
  | kv :: rest, k => if kv.1 == k then some kv.2 else lookupParam rest k

/-- Object spread `{...a, ...b}`: lookup prefers `b`, falling back to `a`.
(The source keeps `a`'s key order for overridden keys; this embedding moves
them to `b`'s position, which has the same lookup semantics.) -/
def spreadMerge (a b : ParamMap) : ParamMap :=
  a.filter (fun kv => b.all (fun kv2 => !(kv2.1 == kv.1))) ++ b

/-- Lookup in the screen-parameter store `this.screenParams` (a JS object
keyed by screen name). -/
def getObj : List (String × ParamMap) → String → Option ParamMap
  | [], _ => none
  | kv :: rest, k => if kv.1 == k then some kv.2 else getObj rest k

/-- JS assignment `obj[k] = v` on the screen-parameter store: overwrite the
existing key in place, or append the new key. -/
def setObj : List (String × ParamMap) → String → ParamMap → List (String × ParamMap)
  | [], k, v => [(k, v)]
  | kv :: rest, k, v => if kv.1 == k then (k, v) :: rest else kv :: setObj rest k v

/-- The route registry `ROUTES` of `recipes.js` (`Object.values(ROUTES)`). -/
def ROUTES_values : List String :=
  ["Welcome", "Home", "RecipeDetail", "MyFood",
   "CustomRecipesScreen", "RecipesFormScreen", "FavoriteScreen"]

/-- `NavigationHelpers.isValidRoute`: membership in the route registry.
`SCREEN_CONFIG` has exactly the same keys, so this also decides whether
`this.screens[screenName]` is defined. -/
def isValidRoute (routeName : String) : Bool :=
  ROUTES_values.contains routeName

/-- The `DEEP_LINKS` table of `recipes.js`: route name to URL path template. -/
def DEEP_LINKS (route : String) : Option String :=
  if route = "Welcome" then some "/welcome"
  else if route = "Home" then some "/home"
  else if route = "RecipeDetail" then some "/recipe/:id"
  else if route = "MyFood" then some "/my-recipes"
  else if route = "CustomRecipesScreen" then some "/custom-recipes"
  else if route = "RecipesFormScreen" then some "/add-recipe"
  else if route = "FavoriteScreen" then some "/favorites"
  else none

/-- The backquote character (code 96), handled by `GetSubstitution`. -/
def backquoteChar : Char := Char.ofNat 96

/-- The single-quote character (code 39), handled by `GetSubstitution`. -/
def quoteChar : Char := Char.ofNat 39

/-- ECMAScript `GetSubstitution` on the replacement string of
`String.prototype.replace` with a string (capture-free) pattern:
`$$` yields `$`, `$&` the matched substring `m`, a `$` followed by the
backquote the part `b` of the subject before the match, a `$` followed by
the single quote the part `a` after the match; any other `$` sequence
(including `$1`..`$99`, since there are no captures, and `$<`, since
named captures are undefined) is kept literally. -/
def substDollar (m b a : List Char) : List Char → List Char
  | [] => []
  | c :: rest =>
      if c = '$' then
        match rest with
        | [] => ['$']
        | c2 :: rest2 =>
            if c2 = '$' then '$' :: substDollar m b a rest2
            else if c2 = '&' then m ++ substDollar m b a rest2
            else if c2 = backquoteChar then b ++ substDollar m b a rest2
            else if c2 = quoteChar then a ++ substDollar m b a rest2
            else '$' :: substDollar m b a (c2 :: rest2)
      else c :: substDollar m b a rest

/-- Worker for JS `String.prototype.replace` with a string pattern:
`pre` accumulates (reversed) the part of the subject already passed, so
that the substitution sees the before/after context of the match. -/
def replaceFirstAux (pat rep : List Char) : List Char → List Char → List Char
  | pre, [] =>
      if pat.isPrefixOf ([] : List Char) then substDollar pat pre.reverse [] rep else []
  | pre, c :: rest =>
      if pat.isPrefixOf (c :: rest) then
        substDollar pat pre.reverse ((c :: rest).drop pat.length) rep
          ++ (c :: rest).drop pat.length
      else c :: replaceFirstAux pat rep (c :: pre) rest

/-- JS `String.prototype.replace` with a string pattern: replace the first
occurrence of `pat` in `s` by `rep` processed through `GetSubstitution`
(character-list level). -/
def replaceFirst (s pat rep : List Char) : List Char :=
  replaceFirstAux pat rep [] s

/-- `NavigationHelpers.getDeepLink`: look the template up (defaulting to
`/`), then substitute `:key` by the value for each key of `params` via
`link.replace(...)`, which interprets `$`-patterns in the value. -/
def getDeepLink (routeName : String) (params : ParamMap) : String :=
  let link := (DEEP_LINKS routeName).getD "/"
  params.foldl
    (fun link kv => String.mk (replaceFirst link.data (':' :: kv.1.data) kv.2.data))
    link

/-- JS `path.split('/')` (character-list level). -/
def splitSlash : List Char → List (List Char)
  | [] => [[]]
  | c :: rest =>
      let r := splitSlash rest
      if c = '/' then [] :: r
      else (c :: r.headD []) :: r.tail

/-- Result of `NavigationHelpers.parseDeepLink`.  A parameter value is
`none` when the corresponding URL segment is missing (JS `undefined`). -/
structure ParsedLink where
  route : String
  params : List (String × Option String)
deriving DecidableEq, Repr

/-- `NavigationHelpers.parseDeepLink`: split the path on `/`, drop empty
segments (JS `filter(s => s)`), and dispatch on the first segment; the
default branch yields the Home route. -/
def parseDeepLink (path : String) : ParsedLink :=
  let segments := ((splitSlash path.data).filter (fun seg => !seg.isEmpty)).map String.mk
  match segments with
  | "welcome" :: _ => ⟨"Welcome", []⟩
  | "home" :: _ => ⟨"Home", []⟩
  | "recipe" :: rest => ⟨"RecipeDetail", [("id", rest.head?)]⟩
  | "my-recipes" :: _ => ⟨"MyFood", []⟩
  | "custom-recipes" :: _ => ⟨"CustomRecipesScreen", []⟩
  | "add-recipe" :: _ => ⟨"RecipesFormScreen", []⟩
  | "favorites" :: _ => ⟨"FavoriteScreen", []⟩
  | _ => ⟨"Home", []⟩

/-- An entry of `this.navigationHistory`: `{ screen, params }`. -/
structure NavEntry where
  screen : String
  params : ParamMap
deriving DecidableEq, Repr

/-- A native browser history entry as produced by
`history.pushState(state, '', url)` / `history.replaceState`: the state
payload `{ screen, params }` together with the URL. -/
structure BrowserEntry where
  screen : String
  params : ParamMap
  url : String
deriving DecidableEq, Repr

/-- The navigation-relevant mutable state of `WebNavigationContainer`,
plus a mirror of the native browser history it writes through
`history.pushState`/`history.replaceState`. -/
structure NavState where
  currentScreen : String
  screenParams : List (String × ParamMap)
  navigationHistory : List NavEntry
  historyIndex : Int
  animationInProgress : Bool
  browserHistory : List BrowserEntry
deriving DecidableEq, Repr

/-- Events on the four listener channels, with a marker for the screen
render so that the position of rendering inside an operation is visible
in the emission trace. -/
inductive NavEvent where
  | beforeRemove : NavEvent
  | blur : String → NavEvent
  | focus : String → NavEvent
  | stateChange : NavEvent
  | renderScreen : String → NavEvent
deriving DecidableEq, Repr

/-- Net effect of `renderScreenWithAnimation` on the in-flight flag: the
flag is set, but reset at once when `this.screens[screenName]` is missing
(the function then returns without rendering).  The screen registry
`SCREEN_CONFIG` has exactly the valid routes as keys. -/
def renderScreenFlag (screenName : String) : Bool :=
  isValidRoute screenName

/-- The render marker emitted by `renderScreenWithAnimation`: present only
when the screen exists in the registry. -/
def renderScreenEvents (screenName : String) : List NavEvent :=
  if isValidRoute screenName then [NavEvent.renderScreen screenName] else []

/-- `addToHistory`: drop the forward part of the stack
(`slice(0, historyIndex + 1)`), push the new entry, and point the index at
it.  The only negative index reachable in the source is `-1` (fresh or
just-reset container), for which the slice is empty, matching `toNat`. -/
def addToHistory (s : NavState) (screenName : String) (params : ParamMap) : NavState :=
  let hist := s.navigationHistory.take (s.historyIndex + 1).toNat ++ [⟨screenName, params⟩]
  { s with navigationHistory := hist, historyIndex := (hist.length : Int) - 1 }

/-- `canGoBack`: `this.historyIndex > 0`. -/
def canGoBack (s : NavState) : Bool :=
  decide (s.historyIndex > 0)

/-- `navigate(screenName, params)`: rejected when the route is not in the
registry, and when an animation is in flight; otherwise stores the merged
screen params, pushes the history entry, switches the current screen,
renders, and pushes a browser history entry, emitting
`beforeRemove`, `blur` (previous screen, when truthy), the render,
`focus`, and the state change, in source order. -/
def navigate (s : NavState) (screenName : String) (params : ParamMap) :
    NavState × List NavEvent :=
  if isValidRoute screenName = false then (s, [])
  else if s.animationInProgress then (s, [])
  else
    let merged := spreadMerge ((getObj s.screenParams screenName).getD []) params
    let s1 := { s with screenParams := setObj s.screenParams screenName merged }
    let s2 := addToHistory s1 screenName params
    let prev := s2.currentScreen
    let s3 := { s2 with
      currentScreen := screenName,
      animationInProgress := renderScreenFlag screenName,
      browserHistory :=
        s2.browserHistory ++ [⟨screenName, params, getDeepLink screenName params⟩] }
    (s3, [NavEvent.beforeRemove]
      ++ (if prev ≠ "" then [NavEvent.blur prev] else [])
      ++ renderScreenEvents screenName
      ++ [NavEvent.focus screenName, NavEvent.stateChange])

/-- `goBack()`: when `canGoBack()`, decrement the index, switch to the
entry now pointed at, emit `blur` then `focus`, render it, and push a
browser history entry; otherwise only log (no state change, no events).
The index is in range on every state satisfying the stack invariant, so
the out-of-range default of `getD` is never taken there. -/
def goBack (s : NavState) : NavState × List NavEvent :=
  if canGoBack s then
    let idx := s.historyIndex - 1
    let prevEntry := s.navigationHistory.getD idx.toNat ⟨"", []⟩
    let cur := s.currentScreen
    let s1 := { s with
      historyIndex := idx,
      currentScreen := prevEntry.screen,
      animationInProgress := renderScreenFlag prevEntry.screen,
      browserHistory := s.browserHistory ++
        [⟨prevEntry.screen, prevEntry.params, getDeepLink prevEntry.screen prevEntry.params⟩] }
    (s1, [NavEvent.blur cur, NavEvent.focus prevEntry.screen]
      ++ renderScreenEvents prevEntry.screen)
  else (s, [])

/-- Replacement of the last browser history entry,
`history.replaceState(state, '', url)`. -/
def replaceLast (l : List BrowserEntry) (e : BrowserEntry) : List BrowserEntry :=
  l.dropLast ++ [e]

/-- `replace(screenName, params)`: no route validation and no in-flight
check; stores the merged screen params, overwrites the entry at the
current index (appending instead when the stack is empty), switches the
current screen, renders, and replaces the current browser entry, emitting
`beforeRemove`, `blur` (unconditional here), the render, and `focus`. -/
def replace (s : NavState) (screenName : String) (params : ParamMap) :
    NavState × List NavEvent :=
  let merged := spreadMerge ((getObj s.screenParams screenName).getD []) params
  let s1 := { s with screenParams := setObj s.screenParams screenName merged }
  let s2 :=
    if s1.navigationHistory.length > 0 then
      { s1 with navigationHistory :=
          s1.navigationHistory.set s1.historyIndex.toNat ⟨screenName, params⟩ }
    else addToHistory s1 screenName params
  let prev := s2.currentScreen
  let s3 := { s2 with
    currentScreen := screenName,
    animationInProgress := renderScreenFlag screenName,
    browserHistory :=
      replaceLast s2.browserHistory ⟨screenName, params, getDeepLink screenName params⟩ }
  (s3, [NavEvent.beforeRemove, NavEvent.blur prev]
    ++ renderScreenEvents screenName ++ [NavEvent.focus screenName])

/-- `reset(screenName, params)`: no route validation and no in-flight
check; clears the stack, the index and the screen params, reseeds the
stack with the single new entry, switches the current screen and renders,
emitting only `focus`.  The source does not touch the browser history. -/
def reset (s : NavState) (screenName : String) (params : ParamMap) :
    NavState × List NavEvent :=
  let s1 := { s with navigationHistory := [], historyIndex := -1, screenParams := [] }
  let s2 := addToHistory s1 screenName params
  let s3 := { s2 with
    currentScreen := screenName,
    animationInProgress := renderScreenFlag screenName }
  (s3, renderScreenEvents screenName ++ [NavEvent.focus screenName])

/-- The `setTimeout` callback at the end of `renderScreenWithAnimation`
firing after the fixed 300 ms delay: the in-flight flag is cleared
(Animating to Idle). -/
def tick (s : NavState) : NavState :=
  { s with animationInProgress := false }

/-- Result of `getCurrentRoute()`: `{ name, params }` with the stored
screen params of the current screen, defaulting to the empty bag. -/
structure RouteInfo where
  name : String
  params : ParamMap
deriving DecidableEq, Repr

/-- `getCurrentRoute()`. -/
def getCurrentRoute (s : NavState) : RouteInfo :=
  ⟨s.currentScreen, (getObj s.screenParams s.currentScreen).getD []⟩

/-- The container state right after the constructor, before `init()` runs
`navigate(ROUTES.WELCOME)`: empty stack, index `-1`, idle, current screen
field initialised to the Welcome route. -/
def emptyState : NavState :=
  { currentScreen := "Welcome"
    screenParams := []
    navigationHistory := []
    historyIndex := -1
    animationInProgress := false
    browserHistory := [] }

/-- The initialized container: `init()` seeds the stack by calling
`navigate(ROUTES.WELCOME)` (on a plain page load, the hash-based
`handleInitialRoute` that precedes it is a no-op). -/
def initState : NavState :=
  (navigate emptyState "Welcome" []).1

/-- A call into the navigation API, or the animation timer firing. -/
inductive NavOp where
  | navigate : String → ParamMap → NavOp
  | replace : String → ParamMap → NavOp
  | reset : String → ParamMap → NavOp
  | goBack : NavOp
  | tick : NavOp

/-- Apply one call to the container state. -/
def applyOp (s : NavState) : NavOp → NavState
  | .navigate r p => (navigate s r p).1
  | .replace r p => (replace s r p).1
  | .reset r p => (reset s r p).1
  | .goBack => (goBack s).1
  | .tick => tick s

/-- Run a sequence of calls. -/
def runOps (s : NavState) (ops : List NavOp) : NavState :=
  ops.foldl applyOp s

/-- The history-stack invariant: the index is in range and the stack is
never empty. -/
def stackInv (s : NavState) : Prop :=
  0 ≤ s.historyIndex ∧ s.historyIndex < (s.navigationHistory.length : Int) ∧
    1 ≤ s.navigationHistory.length

instance (s : NavState) : Decidable (stackInv s) := by
  unfold stackInv; infer_instance

lemma stackInv_addToHistory (s : NavState) (r : String) (p : ParamMap) :
    stackInv (addToHistory s r p) := by
  unfold stackInv addToHistory
  simp only [List.length_append, List.length_take, List.length_cons, List.length_nil]
  constructor
  · omega
  · constructor <;> omega

lemma stackInv_navigate (s : NavState) (r : String) (p : ParamMap)
    (h : stackInv s) : stackInv ((navigate s r p).1) := by
  unfold navigate
  by_cases hv : isValidRoute r = false
  · simpa [hv]
  · by_cases ha : s.animationInProgress
    · simp only [hv, ha, if_true, if_false]; exact h
    · simp only [hv, ha, if_false]
      have := stackInv_addToHistory
        { s with screenParams :=
            setObj s.screenParams r (spreadMerge ((getObj s.screenParams r).getD []) p) } r p
      simpa [stackInv] using this

lemma stackInv_goBack (s : NavState) (h : stackInv s) : stackInv ((goBack s).1) := by
  unfold goBack
  by_cases hc : canGoBack s
  · have hidx : 0 < s.historyIndex := by
      simpa [canGoBack] using hc
    obtain ⟨h1, h2, h3⟩ := h
    simp only [hc, if_true]
    unfold stackInv
    refine ⟨?_, ?_, ?_⟩ <;> dsimp only <;> omega
  · simpa [hc]

lemma stackInv_replace (s : NavState) (r : String) (p : ParamMap)
    (h : stackInv s) : stackInv ((replace s r p).1) := by
  unfold replace
  by_cases hl : s.navigationHistory.length > 0
  · obtain ⟨h1, h2, h3⟩ := h
    simp only [hl, if_true]
    exact ⟨h1, by simpa using h2, by simpa using h3⟩
  · simp only [hl, if_false]
    have := stackInv_addToHistory
      { s with screenParams :=
          setObj s.screenParams r (spreadMerge ((getObj s.screenParams r).getD []) p) } r p
    simpa [stackInv] using this

lemma stackInv_reset (s : NavState) (r : String) (p : ParamMap) :
    stackInv ((reset s r p).1) := by
  unfold reset
  have := stackInv_addToHistory
    { s with navigationHistory := [], historyIndex := -1, screenParams := [] } r p
  simpa [stackInv] using this

lemma stackInv_applyOp (s : NavState) (op : NavOp) (h : stackInv s) :
    stackInv (applyOp s op) := by
  cases op with
  | navigate r p => exact stackInv_navigate s r p h
  | replace r p => exact stackInv_replace s r p h
  | reset r p => exact stackInv_reset s r p
  | goBack => exact stackInv_goBack s h
  | tick => exact h

lemma stackInv_runOps (ops : List NavOp) :
    ∀ s : NavState, stackInv s → stackInv (runOps s ops) := by
  induction ops with
  | nil => intro s hs; exact hs
  | cons op rest ih =>
      intro s hs
      exact ih (applyOp s op) (stackInv_applyOp s op hs)

/-- C1: after any finite sequence of `navigate`/`replace`/`reset`/`goBack`
calls (animation-timer completions may be interleaved freely) applied to
the initialized container, the history index satisfies
`0 <= historyIndex < navigationHistory.length` and the stack holds at
least one entry. -/
theorem nav_stack_invariant (ops : List NavOp) : stackInv (runOps initState ops) :=
  stackInv_runOps ops initState (by decide)

/-- C2 counterexample: in the Animating state reached by `navigate('Home')`
from the initialized container, `goBack()` is not ignored — it decrements
the history index (the in-flight check exists only in `navigate`). -/
theorem goBack_proceeds_while_animating :
    ((navigate (tick initState) "Home" []).1.animationInProgress = true) ∧
    (goBack ((navigate (tick initState) "Home" []).1)).1.historyIndex ≠
      ((navigate (tick initState) "Home" []).1).historyIndex := by
  decide

/-- C2 (amended): while the in-flight flag `animationInProgress` is set,
a `navigate` call is ignored — the state is returned unchanged and no
event is emitted, so the stack, the index and rendering are untouched.
`replace`, `reset` and `goBack` are not guarded by the flag. -/
theorem navigate_ignored_while_animating (s : NavState) (r : String) (p : ParamMap)
    (h : s.animationInProgress = true) : navigate s r p = (s, []) := by
  unfold navigate
  by_cases hv : isValidRoute r = false <;> simp [hv, h]

/-- Witness for the amended C2 at the initialized container, which is
still Animating after the seeding `navigate`. -/
theorem navigate_ignored_while_animating_witness :
    initState.animationInProgress = true ∧ navigate initState "Home" [] = (initState, []) :=
  ⟨by decide, navigate_ignored_while_animating initState "Home" [] (by decide)⟩

/-- C3 counterexample: `replace` performs no registry validation — called
with the unregistered route `NoSuchScreen` on the initialized (idle)
container it overwrites the history entry, so the stack does not stay
unchanged. -/
theorem replace_mutates_on_unknown_route :
    isValidRoute "NoSuchScreen" = false ∧
    (replace (tick initState) "NoSuchScreen" []).1.navigationHistory ≠
      (tick initState).navigationHistory := by
  decide

/-- C3 (amended): only `navigate` validates the route against the screen
registry before mutating: with an unregistered route it reports the error
and returns with the history stack, the index and the whole state exactly
unchanged and no events emitted.  `replace` and `reset` do not validate
and mutate the stack even for unregistered routes. -/
theorem navigate_unknown_route_noop (s : NavState) (r : String) (p : ParamMap)
    (h : isValidRoute r = false) : navigate s r p = (s, []) := by
  simp [navigate, h]

/-- Witness for the amended C3: `navigate('NoSuchScreen', {})` on the idle
initialized container is a no-op. -/
theorem navigate_unknown_route_noop_witness :
    isValidRoute "NoSuchScreen" = false ∧
    navigate (tick initState) "NoSuchScreen" [] = (tick initState, []) :=
  ⟨by decide, navigate_unknown_route_noop (tick initState) "NoSuchScreen" [] (by decide)⟩

/-- The C4 scenario start state: stack `[Home, RecipeDetail, FavoriteScreen]`
with the index at 2, idle. -/
def c4Start : NavState :=
  { currentScreen := "FavoriteScreen"
    screenParams := []
    navigationHistory := [⟨"Home", []⟩, ⟨"RecipeDetail", []⟩, ⟨"FavoriteScreen", []⟩]
    historyIndex := 2
    animationInProgress := false
    browserHistory := [] }

/-- C4: from stack `[Home, RecipeDetail, FavoriteScreen]` at index 2, two
`goBack` calls (each animation completing before the next input, as the
Animating-to-Idle transition of the state machine requires) reach `Home`
at index 0, and a following `navigate('MyFood', {})` prunes the forward
entries: the resulting stack is `[Home, MyFood]` with index 1, so the
`RecipeDetail` and `FavoriteScreen` entries are gone from the state. -/
theorem forward_pruning :
    ((tick ((goBack (tick (goBack c4Start).1)).1)).historyIndex = 0 ∧
     (tick ((goBack (tick (goBack c4Start).1)).1)).currentScreen = "Home") ∧
    (navigate (tick ((goBack (tick (goBack c4Start).1)).1)) "MyFood" []).1.navigationHistory =
      [⟨"Home", []⟩, ⟨"MyFood", []⟩] ∧
    (navigate (tick ((goBack (tick (goBack c4Start).1)).1)) "MyFood" []).1.historyIndex = 1 := by
  decide

/-- C5: a successful `navigate` (registered route, idle, current screen
name truthy) emits exactly `beforeRemove`, then `blur` of the previous
screen, then the render, then `focus` of the new screen, then the state
change — each channel exactly once, in this order. -/
theorem navigate_event_order (s : NavState) (r : String) (p : ParamMap)
    (hv : isValidRoute r = true) (ha : s.animationInProgress = false)
    (hc : s.currentScreen ≠ "") :
    (navigate s r p).2 =
      [NavEvent.beforeRemove, NavEvent.blur s.currentScreen,
       NavEvent.renderScreen r, NavEvent.focus r, NavEvent.stateChange] := by
  simp [navigate, renderScreenEvents, hv, ha, hc, addToHistory]

/-- Witness for C5: navigating from `Welcome` to `Home` on the idle
initialized container. -/
theorem navigate_event_order_witness :
    isValidRoute "Home" = true ∧ (tick initState).animationInProgress = false ∧
    (tick initState).currentScreen ≠ "" ∧
    (navigate (tick initState) "Home" []).2 =
      [NavEvent.beforeRemove, NavEvent.blur "Welcome",
       NavEvent.renderScreen "Home", NavEvent.focus "Home", NavEvent.stateChange] :=
  ⟨by decide, by decide, by decide, by
    have h := navigate_event_order (tick initState) "Home" [] (by decide) (by decide)
      (by decide)
    exact h.trans (by decide)⟩

/-- C7 counterexample: `reset` succeeds (the current screen becomes the
new route) but writes nothing to the native browser history — no entry
for the new route is pushed or replaced. -/
theorem reset_skips_browser_history :
    (reset (tick initState) "Home" []).1.currentScreen = "Home" ∧
    (reset (tick initState) "Home" []).1.browserHistory = (tick initState).browserHistory ∧
    ((reset (tick initState) "Home" []).1.browserHistory.all
      (fun e => !(e.screen == "Home"))) = true := by
  decide

/-- C7 (amended): a successful `navigate` pushes a native history entry
with state payload `{route, params}` and the URL from the deep-link
table, and `replace` replaces the current native entry likewise; `reset`
does not touch the browser history at all. -/
theorem browser_history_updates (s : NavState) (r : String) (p : ParamMap)
    (hv : isValidRoute r = true) (ha : s.animationInProgress = false) :
    (navigate s r p).1.browserHistory = s.browserHistory ++ [⟨r, p, getDeepLink r p⟩] ∧
    (replace s r p).1.browserHistory =
      replaceLast s.browserHistory ⟨r, p, getDeepLink r p⟩ ∧
    (reset s r p).1.browserHistory = s.browserHistory := by
  refine ⟨?_, ?_, ?_⟩
  · simp [navigate, hv, ha, addToHistory]
  · by_cases hl : s.navigationHistory.length > 0 <;> simp [replace, addToHistory, hl]
  · simp [reset, addToHistory]

/-- Witness for the amended C7 at the idle initialized container. -/
theorem browser_history_updates_witness :
    isValidRoute "Home" = true ∧ (tick initState).animationInProgress = false ∧
    (navigate (tick initState) "Home" []).1.browserHistory =
      (tick initState).browserHistory ++ [⟨"Home", [], getDeepLink "Home" []⟩] :=
  ⟨by decide, by decide,
    (browser_history_updates (tick initState) "Home" [] (by decide) (by decide)).1⟩

/-- C8: `goBack()` on any state where `canGoBack()` is false returns the
state unchanged (same index, same entries, same everything) and emits no
events; the source only logs the at-root condition. -/
theorem goBack_noop_at_root (s : NavState) (h : canGoBack s = false) :
    goBack s = (s, []) := by
  simp [goBack, h]

/-- Witness for C8: the initialized container is at the root. -/
theorem goBack_noop_at_root_witness :
    canGoBack (tick initState) = false ∧ goBack (tick initState) = (tick initState, []) :=
  ⟨by decide, goBack_noop_at_root (tick initState) (by decide)⟩

/-- A subscribed handler of one channel, abstracted to its observable
behaviour during `emitNavigationEvent`: the identifier it logs when
invoked, and whether its invocation throws. -/
structure Handler where
  hid : Nat
  throwsErr : Bool
deriving DecidableEq, Repr

/-- `emitNavigationEvent`'s `forEach` loop over one channel's handler
list: every callback is invoked inside `try`/`catch`, so an exception is
recorded (`console.error`) instead of propagating.  Returns the
identifiers of the invoked handlers in invocation order, and the
identifiers whose invocation threw and was logged. -/
def emitNavigationEvent : List Handler → List Nat × List Nat
  | [] => ([], [])
  | h :: rest =>
      let r := emitNavigationEvent rest
      (h.hid :: r.1, if h.throwsErr then h.hid :: r.2 else r.2)

/-- C9: for any channel's handler list, `emitNavigationEvent` invokes all
current handlers in registration order — also every handler after a
throwing one — and the logged errors are exactly those of the throwing
handlers; no exception escapes the emission (the function is total and
returns its logs), so the surrounding navigation operation is
unaffected. -/
theorem emit_handler_isolation (handlers : List Handler) :
    (emitNavigationEvent handlers).1 = handlers.map Handler.hid ∧
    (emitNavigationEvent handlers).2 =
      (handlers.filter Handler.throwsErr).map Handler.hid := by
  induction handlers with
  | nil => exact ⟨rfl, rfl⟩
  | cons h rest ih =>
      by_cases ht : h.throwsErr <;>
        simp [emitNavigationEvent, ht, ih.1, ih.2, List.filter_cons]

lemma splitSlash_no_slash (l : List Char) (h : '/' ∉ l) : splitSlash l = [l] := by
  induction l with
  | nil => rfl
  | cons c rest ih =>
      have hc : c ≠ '/' := fun e => h (e ▸ List.mem_cons_self c rest)
      have hrest : '/' ∉ rest := fun m => h (List.mem_cons_of_mem c m)
      simp [splitSlash, ih hrest, hc]

lemma substDollar_no_dollar (m b a rep : List Char) (h : '$' ∉ rep) :
    substDollar m b a rep = rep := by
  induction rep with
  | nil => rfl
  | cons c rest ih =>
      have hc : c ≠ '$' := fun e => h (e ▸ List.mem_cons_self c rest)
      have hrest : '$' ∉ rest := fun hm => h (List.mem_cons_of_mem c hm)
      cases rest with
      | nil => simp [substDollar, hc]
      | cons c2 rest2 => simp [substDollar, hc, ih hrest]

lemma parse_get_recipeDetail (v : String) (hne : v ≠ "") (hs : '/' ∉ v.data)
    (hd : '$' ∉ v.data) :
    parseDeepLink (getDeepLink "RecipeDetail" [("id", v)]) =
      ⟨"RecipeDetail", [("id", some v)]⟩ := by
  have hdata : v.data ≠ [] := by
    intro e
    apply hne
    cases v with
    | mk l =>
        simp only [String.data] at e
        simp [e]
  have h1 : getDeepLink "RecipeDetail" [("id", v)] =
      String.mk ('/' :: 'r' :: 'e' :: 'c' :: 'i' :: 'p' :: 'e' :: '/' ::
        (substDollar [':','i','d'] ['/','r','e','c','i','p','e','/'] [] v.data ++ [])) := rfl
  rw [h1, substDollar_no_dollar _ _ _ _ hd, List.append_nil]
  unfold parseDeepLink
  have h2 : splitSlash
        (String.mk ('/' :: 'r' :: 'e' :: 'c' :: 'i' :: 'p' :: 'e' :: '/' :: v.data)).data
      = [[], ['r','e','c','i','p','e'], v.data] := by
    have hv2 := splitSlash_no_slash v.data hs
    simp [splitSlash, hv2]
  rw [h2]
  obtain ⟨c, cs, hcs⟩ : ∃ c cs, v.data = c :: cs := by
    cases hd : v.data with
    | nil => exact absurd hd hdata
    | cons c cs => exact ⟨c, cs, rfl⟩
  rw [hcs]
  simp only [List.filter, List.isEmpty, Bool.not_false, Bool.not_true, List.map]
  have : String.mk (c :: cs) = v := by rw [← hcs]
  rw [this]
  rfl

/-- A route's parameter bag as matched by its path template: every route
other than `RecipeDetail` has a template without placeholders and the
empty bag; `RecipeDetail`'s template `/recipe/:id` has exactly an `id`
whose value, being one URL path segment, is nonempty and slash-free, and
contains no `$` (a `$` in the value is mangled by the `$`-pattern
substitution of `String.prototype.replace`, see the counterexample). -/
def routeParamsMatch (r : String) (p : ParamMap) : Prop :=
  (r = "RecipeDetail" ∧
    ∃ v : String, p = [("id", v)] ∧ v ≠ "" ∧ '/' ∉ v.data ∧ '$' ∉ v.data) ∨
  (r ≠ "RecipeDetail" ∧ isValidRoute r = true ∧ p = [])

/-- A parameter bag as a parse result: every given value is present
(JS: defined). -/
def liftParams (p : ParamMap) : List (String × Option String) :=
  p.map (fun kv => (kv.1, some kv.2))

/-- C6 counterexample: the round trip as claimed fails for the
path-template params `{id: '$$x'}` of the registered route
`RecipeDetail` — `link.replace(':id', '$$x')` collapses `$$` to `$`, so
the program produces `/recipe/$x`, which parses back to `{id: '$x'}`,
not `{id: '$$x'}`. -/
theorem deepLink_roundtrip_fails_on_dollar :
    getDeepLink "RecipeDetail" [("id", "$$x")] = "/recipe/$x" ∧
    parseDeepLink (getDeepLink "RecipeDetail" [("id", "$$x")]) =
      ⟨"RecipeDetail", [("id", some "$x")]⟩ ∧
    parseDeepLink (getDeepLink "RecipeDetail" [("id", "$$x")]) ≠
      ⟨"RecipeDetail", [("id", some "$$x")]⟩ := by
  decide

/-- C6 (amended): the deep-link mapping is a round trip on `$`-free
values — for every registered route and parameter bag matching its path
template whose values contain no `$`, `parseDeepLink (getDeepLink r p)`
recovers exactly the route and the parameters.  In particular
`getDeepLink('RecipeDetail', {id:'42'})` is `/recipe/42` and parses back
(see the witness). -/
theorem deepLink_roundtrip (r : String) (p : ParamMap) (h : routeParamsMatch r p) :
    parseDeepLink (getDeepLink r p) = ⟨r, liftParams p⟩ := by
  rcases h with ⟨hr, v, hp, hne, hs, hd⟩ | ⟨hr, hvalid, hp⟩
  · subst hr; subst hp
    simpa [liftParams] using parse_get_recipeDetail v hne hs hd
  · subst hp
    have hcases : r = "Welcome" ∨ r = "Home" ∨ r = "RecipeDetail" ∨ r = "MyFood" ∨
        r = "CustomRecipesScreen" ∨ r = "RecipesFormScreen" ∨ r = "FavoriteScreen" := by
      simpa [isValidRoute, ROUTES_values, List.contains, or_assoc] using hvalid
    rcases hcases with h|h|h|h|h|h|h <;> first
      | exact absurd h hr
      | (subst h; decide)

/-- Witness for C6: the concrete scenario of the spec,
`getDeepLink('RecipeDetail', {id: '42'}) = '/recipe/42'` and
`parseDeepLink('/recipe/42') = {route: 'RecipeDetail', params: {id: '42'}}`. -/
theorem deepLink_roundtrip_witness :
    getDeepLink "RecipeDetail" [("id", "42")] = "/recipe/42" ∧
    parseDeepLink "/recipe/42" = ⟨"RecipeDetail", [("id", some "42")]⟩ ∧
    routeParamsMatch "RecipeDetail" [("id", "42")] ∧
    parseDeepLink (getDeepLink "RecipeDetail" [("id", "42")]) =
      ⟨"RecipeDetail", liftParams [("id", "42")]⟩ :=
  ⟨by decide, by decide,
   Or.inl ⟨rfl, "42", rfl, by decide, by decide, by decide⟩,
   deepLink_roundtrip "RecipeDetail" [("id", "42")]
     (Or.inl ⟨rfl, "42", rfl, by decide, by decide, by decide⟩)⟩

/-- JS `||`-style preference on option values: the left value when
present, the right one otherwise. -/
def paramOr (x y : Option String) : Option String :=
  match x with
  | some v => some v
  | none => y

lemma getObj_setObj_self (m : List (String × ParamMap)) (k : String) (v : ParamMap) :
    getObj (setObj m k v) k = some v := by
  induction m with
  | nil => simp [setObj, getObj]
  | cons kv rest ih =>
      by_cases hk : (kv.1 == k) = true
      · simp [setObj, getObj, hk]
      · simp [setObj, getObj, hk, ih]

lemma lookupParam_eq_none_of_all (b : ParamMap) (t : String)
    (h : b.all (fun kv2 => !(kv2.1 == t)) = true) : lookupParam b t = none := by
  induction b with
  | nil => rfl
  | cons kv rest ih =>
      simp only [List.all_cons, Bool.and_eq_true, Bool.not_eq_true'] at h
      simp [lookupParam, h.1, ih h.2]

lemma lookupParam_isSome_of_not_all (b : ParamMap) (t : String)
    (h : b.all (fun kv2 => !(kv2.1 == t)) = false) : (lookupParam b t).isSome = true := by
  induction b with
  | nil => simp [List.all_nil] at h
  | cons kv rest ih =>
      by_cases hk : (kv.1 == t) = true
      · simp [lookupParam, hk]
      · simp only [List.all_cons, Bool.and_eq_false_iff, Bool.not_eq_false'] at h
        rcases h with h | h
        · exact absurd h hk
        · simp [lookupParam, hk, ih h]

lemma lookupParam_spreadMerge (a b : ParamMap) (k : String) :
    lookupParam (spreadMerge a b) k = paramOr (lookupParam b k) (lookupParam a k) := by
  induction a with
  | nil =>
      show lookupParam b k = paramOr (lookupParam b k) none
      cases lookupParam b k <;> rfl
  | cons x a ih =>
      by_cases hx : (b.all (fun kv2 => !(kv2.1 == x.1))) = true
      · by_cases hxk : (x.1 == k) = true
        · have hkx : x.1 = k := by simpa using hxk
          have hb : lookupParam b k = none := lookupParam_eq_none_of_all b k (hkx ▸ hx)
          simp [spreadMerge, List.filter_cons, hx, lookupParam, hxk, hb, paramOr]
        · have : lookupParam (spreadMerge a b) k = paramOr (lookupParam b k) (lookupParam a k) := ih
          simpa [spreadMerge, List.filter_cons, hx, lookupParam, hxk] using this
      · have hxf : (b.all (fun kv2 => !(kv2.1 == x.1))) = false := by
          simpa using hx
        by_cases hxk : (x.1 == k) = true
        · have hkx : x.1 = k := by simpa using hxk
          have hsome : (lookupParam b k).isSome = true :=
            lookupParam_isSome_of_not_all b k (hkx ▸ hxf)
          obtain ⟨w, hw⟩ := Option.isSome_iff_exists.mp hsome
          have := ih
          simp [spreadMerge, List.filter_cons, hxf, lookupParam, hxk, hw, paramOr] at this ⊢
          simpa [hw, paramOr] using this
        · have := ih
          simpa [spreadMerge, List.filter_cons, hxf, lookupParam, hxk] using this

lemma navigate_fields (s : NavState) (r : String) (p : ParamMap)
    (hv : isValidRoute r = true) (ha : s.animationInProgress = false) :
    (navigate s r p).1.screenParams =
        setObj s.screenParams r (spreadMerge ((getObj s.screenParams r).getD []) p) ∧
    (navigate s r p).1.currentScreen = r ∧
    (navigate s r p).1.animationInProgress = renderScreenFlag r := by
  simp [navigate, hv, ha, addToHistory]

/-- C10: screen params accumulate across visits rather than being
replaced wholesale — after `navigate(R, p1)` (animation then completing)
followed by `navigate(R, p2)` on a container where `R` had no stored
params yet, the params reported by `getCurrentRoute()` are the spread
merge of `p1` and `p2`: for every key, `p2`'s value when present,
otherwise `p1`'s.  With `p2 = {}` the keys of `p1` are still reported. -/
theorem navigate_params_accumulate (s : NavState) (r : String) (p1 p2 : ParamMap) (k : String)
    (hv : isValidRoute r = true) (ha : s.animationInProgress = false)
    (h0 : getObj s.screenParams r = none) :
    lookupParam ((getCurrentRoute ((navigate (tick ((navigate s r p1).1)) r p2).1)).params) k
      = paramOr (lookupParam p2 k) (lookupParam p1 k) := by
  obtain ⟨hsp1, hcs1, hflag1⟩ := navigate_fields s r p1 hv ha
  set s1 := (navigate s r p1).1 with hs1
  have ht_sp : (tick s1).screenParams = s1.screenParams := rfl
  have ht_anim : (tick s1).animationInProgress = false := rfl
  obtain ⟨hsp2, hcs2, hflag2⟩ := navigate_fields (tick s1) r p2 hv ht_anim
  set s2 := (navigate (tick s1) r p2).1 with hs2
  have hmid : getObj (tick s1).screenParams r = some (spreadMerge [] p1) := by
    rw [ht_sp, hsp1, h0]
    exact getObj_setObj_self _ _ _
  have hmid' : getObj (tick s1).screenParams r = some p1 := by
    simpa [spreadMerge] using hmid
  have hsp2' : s2.screenParams = setObj (tick s1).screenParams r (spreadMerge p1 p2) := by
    rw [hsp2, hmid']
    rfl
  have hparams : (getCurrentRoute s2).params = spreadMerge p1 p2 := by
    unfold getCurrentRoute
    rw [hcs2, hsp2', getObj_setObj_self]
    rfl
  rw [hparams]
  exact lookupParam_spreadMerge p1 p2 k

/-- Witness for C10: visiting `RecipeDetail` with `{id:'1', tab:'info'}`
and then with `{id:'2'}` still reports `tab = 'info'` from the first
visit. -/
theorem navigate_params_accumulate_witness :
    isValidRoute "RecipeDetail" = true ∧
    (tick initState).animationInProgress = false ∧
    getObj (tick initState).screenParams "RecipeDetail" = none ∧
    lookupParam
      ((getCurrentRoute ((navigate
          (tick ((navigate (tick initState) "RecipeDetail" [("id", "1"), ("tab", "info")]).1))
          "RecipeDetail" [("id", "2")]).1)).params) "tab" = some "info" :=
  ⟨by decide, by decide, by decide, by
    have h := navigate_params_accumulate (tick initState) "RecipeDetail"
      [("id", "1"), ("tab", "info")] [("id", "2")] "tab" (by decide) (by decide) (by decide)
    exact h.trans (by decide)⟩

end RecipeNav
